import Mathlib

/-!
Verification development for the planetary resource/population simulation
engine of the dictation repository.  The TypeScript sources `planet.ts`,
`sim.ts` and `game.ts` are shallowly embedded below; JS numbers are
modelled as exact real numbers, JS division by zero follows the Lean
convention `x / 0 = 0`, and `Math.round` is Mathlib's `round`
(both round halves toward positive infinity).  The files `setup.ts`
(reference endowment values) and `transfer.ts` (trade ledger) are not
part of the available sources; those parts are modelled from the spec
and marked as such in their doc comments.
-/

noncomputable section

namespace Dictation

namespace sim

/-- Production of resources as a factor of untapped (sim.ts). -/
def gainFactor : ℝ := 0.001

/-- Daily birth rate constant (sim.ts). -/
def birthRate : ℝ := 1.05e-3

def thirstFactor : ℝ := 0.5

def quenchDieOff : ℝ := 0.25

def hungerFactor : ℝ := 0.5

def hungerDieOff : ℝ := 0.25

/-- Cost of transferring resources (sim.ts). -/
def transferFactor : ℝ := 2.0e-6

end sim

/-- Container for resources (planet.ts `Resources`). -/
structure Resources where
  water : ℝ
  food : ℝ
  energy : ℝ
  population : ℝ

/-- The four tracked resource keys. -/
inductive ResName where
  | water
  | food
  | energy
  | population
deriving DecidableEq

/-- Dynamic field access `res[resName]`. -/
def Resources.get (v : Resources) : ResName → ℝ
  | .water => v.water
  | .food => v.food
  | .energy => v.energy
  | .population => v.population

/-- Dynamic field update `res[resName] = x`. -/
def Resources.set (v : Resources) : ResName → ℝ → Resources
  | .water, x => { v with water := x }
  | .food, x => { v with food := x }
  | .energy, x => { v with energy := x }
  | .population, x => { v with population := x }

/-- `zeroRes()` from planet.ts. -/
def zeroRes : Resources := { water := 0, food := 0, energy := 0, population := 0 }

/-- Element-wise addition of resources. -/
def Resources.add (a b : Resources) : Resources :=
  { water := a.water + b.water, food := a.food + b.food,
    energy := a.energy + b.energy, population := a.population + b.population }

/-- Element-wise subtraction of resources. -/
def Resources.sub (a b : Resources) : Resources :=
  { water := a.water - b.water, food := a.food - b.food,
    energy := a.energy - b.energy, population := a.population - b.population }

/-- Scale every component of a resource vector. -/
def Resources.scale (c : ℝ) (a : Resources) : Resources :=
  { water := c * a.water, food := c * a.food,
    energy := c * a.energy, population := c * a.population }

/-- Facts about a planet (planet.ts `PlanetaryState`). -/
structure PlanetaryState where
  gravity : ℝ
  distance : ℝ
  period : ℝ
  theta : ℝ
  initResources : Resources

/-- State of a planetary object (planet.ts `Planet`). -/
structure Planet where
  name : String
  info : PlanetaryState
  raw : Resources
  available : Resources
  rate : Resources
  qolRate : ℝ

/-- The `Planet` constructor: raw reserves start at the initial endowment,
available starts at zero except for the population. -/
def mkPlanet (name : String) (state : PlanetaryState) : Planet :=
  { name := name
    info := state
    raw := state.initResources
    available :=
      { water := 0, food := 0, energy := 0,
        population := state.initResources.population }
    rate := zeroRes
    qolRate := 0 }

/-- Modelled from the spec: `setup.refStd` (setup.ts is absent from the
sources), the canonical reference endowment, is kept as a parameter.
The construction of the reference planet itself follows planet.ts
lines 259-266: a planet built from a canonical orbital state whose
available vector is then overwritten with the full reference endowment. -/
def refPlanet (refStd : Resources) : Planet :=
  let p := mkPlanet "Reference"
    { gravity := 1, distance := 1, period := 1, theta := 1, initResources := refStd }
  { p with available := refStd }

/-- `dead` getter: true if no population exists. -/
def Planet.dead (p : Planet) : Prop := p.available.population = 0

/-- Average water per person (`waterPerCapita` getter). -/
def Planet.waterPerCapita (p : Planet) : ℝ :=
  p.available.water / p.available.population

/-- Average food per person (`foodPerCapita` getter). -/
def Planet.foodPerCapita (p : Planet) : ℝ :=
  p.available.food / p.available.population

/-- Average energy per person (`energyPerCapita` getter). -/
def Planet.energyPerCapita (p : Planet) : ℝ :=
  p.available.energy / p.available.population

/-- Current abundance of a raw material (`abundance`). -/
def Planet.abundance (p : Planet) (rn : ResName) : ℝ :=
  p.raw.get rn / p.info.initResources.get rn

/-- Daily required consumption used by `mu` (planet.ts line 115): the
current population times the reference planet's water per capita,
whatever resource is being processed. -/
def Planet.reqConsumption (p : Planet) (ref : Planet) : ℝ :=
  p.available.population * ref.waterPerCapita

/-- Process change of one resource (`mu`): mine at most what is left,
consume the required amount, clamp availability at zero, and return the
new planet together with the fractional change of the available stock. -/
def Planet.mu (p : Planet) (ref : Planet) (rn : ResName) : Planet × ℝ :=
  let oldAmt := p.raw.get rn
  let reqAmt := p.reqConsumption ref
  let mining := min oldAmt (reqAmt * (1 + sim.gainFactor) * p.abundance rn)
  let raw' := p.raw.set rn (oldAmt - mining)
  let oldAvl := p.available.get rn
  let avl' := max 0 (oldAvl + (mining - reqAmt))
  ({ p with raw := raw', available := p.available.set rn avl' },
    if oldAvl = 0 then 0 else (mining - reqAmt) / oldAvl)

/-- How much the people's thirst is quenched (`quench`). -/
def Planet.quench (p : Planet) (ref : Planet) : ℝ :=
  Real.sqrt (p.waterPerCapita / ref.waterPerCapita) - sim.thirstFactor

/-- How much the people's hunger is satisfied (`fullness`). -/
def Planet.fullness (p : Planet) (ref : Planet) : ℝ :=
  Real.sqrt (p.foodPerCapita / ref.foodPerCapita) - sim.hungerFactor

/-- Average qol per person (`qolPerCapita`), zero for a dead planet. -/
def Planet.qolPerCapita (p : Planet) (ref : Planet) : ℝ :=
  if p.available.population = 0 then 0 else p.quench ref + p.fullness ref

/-- Average productivity (`productivity`), normalized by the reference
planet's own qol per capita. -/
def Planet.productivity (p : Planet) (ref : Planet) : ℝ :=
  p.qolPerCapita ref / ref.qolPerCapita ref

/-- Birth rate per day (`birthRate` getter). -/
def Planet.birthRate (p : Planet) (ref : Planet) : ℝ :=
  if p.quench ref < 0 then -sim.quenchDieOff
  else if p.fullness ref < 0 then -sim.hungerDieOff
  else Real.sign (p.productivity ref) * (p.productivity ref) ^ 2 * sim.birthRate

/-- Replace the available population of a planet. -/
def Planet.setPop (p : Planet) (x : ℝ) : Planet :=
  { p with available := { p.available with population := x } }

/-- Perform births for a day (`birth`): decrement by one, multiply by
one plus the birth rate (read on the decremented state), round, and
return the birth rate of the resulting state. -/
def Planet.birth (p : Planet) (ref : Planet) : Planet × ℝ :=
  let p1 := p.setPop (p.available.population - 1)
  let p2 := p1.setPop (p1.available.population * (1 + p1.birthRate ref))
  let p3 := p2.setPop ((round p2.available.population : ℤ) : ℝ)
  (p3, p3.birthRate ref)

/-- Total quality of life of a planet (`totalQol`). -/
def Planet.totalQol (p : Planet) (ref : Planet) : ℝ :=
  p.qolPerCapita ref * p.available.population

/-- X position of the planet. -/
def Planet.x (p : Planet) : ℝ := p.info.distance * Real.cos p.info.theta

/-- Y position of the planet. -/
def Planet.y (p : Planet) : ℝ := p.info.distance * Real.sin p.info.theta

/-- Euclidean distance to another planet (`distance`). -/
def Planet.distance (p q : Planet) : ℝ :=
  Real.sqrt ((q.x - p.x) ^ 2 + (q.y - p.y) ^ 2)

/-- The JavaScript remainder operator on numbers: the dividend minus the
divisor times the quotient truncated toward zero. -/
def jsMod (x y : ℝ) : ℝ :=
  x - y * ((if 0 ≤ x / y then (⌊x / y⌋ : ℤ) else (⌈x / y⌉ : ℤ)) : ℝ)

/-- Step forward a single day (`step`): a no-op when the population is
zero, otherwise run `mu` on water, food and energy, perform births,
advance the orbital angle, and record the fractional qol change. -/
def Planet.step (p : Planet) (ref : Planet) : Planet :=
  let oldQol := p.totalQol ref
  if p.available.population = 0 then p
  else
    let m1 := p.mu ref ResName.water
    let m2 := m1.1.mu ref ResName.food
    let m3 := m2.1.mu ref ResName.energy
    let b := m3.1.birth ref
    let p5 := { b.1 with rate :=
      { water := m1.2, food := m2.2, energy := m3.2, population := b.2 } }
    let p6 := { p5 with info := { p5.info with
      theta := jsMod (p5.info.theta + 2 * Real.pi / p5.info.period) (2 * Real.pi) } }
    { p6 with qolRate := p6.totalQol ref / oldQol - 1 }

/-- JavaScript's Number.MAX_SAFE_INTEGER. -/
def maxSafeInteger : ℝ := 2 ^ 53 - 1

/-- The argument validation of `Game.forward` (game.ts lines 313-319):
an error is thrown exactly when this proposition holds.  The first
disjunct transcribes the condition
`!(0 < dps) && !(dps < Number.MAX_SAFE_INTEGER)` verbatim. -/
def forwardRejects (dps visPer : ℝ) : Prop :=
  (¬ 0 < dps ∧ ¬ dps < maxSafeInteger) ∨ ¬ 0 < visPer

/-- Modelled from the spec: transfer.ts is absent from the sources.  A
`Transfer` is an ordered pair of planets (held here by name, as the
spec's design notes recommend) plus an annual resource flow. -/
structure Transfer where
  srcName : String
  dstName : String
  amount : Resources

/-- Update one named planet in the planet store. -/
def updatePlanet (ps : List (String × Planet)) (n : String) (f : Planet → Planet) :
    List (String × Planet) :=
  ps.map fun x => if x.1 = n then (x.1, f x.2) else x

/-- Modelled from the spec: one registered transfer is applied by moving
`annualAmount / 365` of each resource out of the source's available
vector; the destination receives that daily amount reduced by a loss
proportional to `transferFactor` times the inter-planet distance, and
the loss is not returned to the origin. -/
def tradeForwardOne (ps : List (String × Planet)) (t : Transfer) :
    List (String × Planet) :=
  match List.lookup t.srcName ps, List.lookup t.dstName ps with
  | some pf, some pt =>
      let daily := Resources.scale (1 / 365) t.amount
      let arriving := Resources.scale (1 - sim.transferFactor * pf.distance pt) daily
      updatePlanet
        (updatePlanet ps t.srcName fun p =>
          { p with available := Resources.sub p.available daily })
        t.dstName fun p =>
          { p with available := Resources.add p.available arriving }
  | _, _ => ps

/-- Modelled from the spec: the trade ledger's daily `forward()` applies
every registered transfer once. -/
def tradeForward (ps : List (String × Planet)) (ts : List Transfer) :
    List (String × Planet) :=
  ts.foldl tradeForwardOne ps

/-- Master game state (game.ts `Game`): the planet store, the trade
ledger, the day counter and the cumulative quality-of-life score. -/
structure Game where
  planets : List (String × Planet)
  trade : List Transfer
  currentDay : ℕ
  qolScore : ℝ

/-- The liveness accumulator of `Game.update`:
`someAlive = someAlive || !planet.dead` folded over the planets. -/
def anyAlive (ps : List (String × Planet)) : Prop :=
  ps.foldl (fun q x => q ∨ ¬ x.2.available.population = 0) False

/-- Update the game world by one day (game.ts `update`): step every
planet, accumulate each stepped planet's total qol into the score,
apply the trade ledger, increment the day counter, and report whether
any planet is still alive. -/
def Game.update (g : Game) (ref : Planet) : Game × Prop :=
  let stepped := g.planets.map fun x => (x.1, x.2.step ref)
  let score := g.qolScore + (stepped.map fun x => x.2.totalQol ref).sum
  ({ planets := tradeForward stepped g.trade, trade := g.trade,
     currentDay := g.currentDay + 1, qolScore := score },
   anyAlive stepped)

/-- The day-advancing loop of `Game.forward` (game.ts lines 332-364),
stripped of its real-time scheduling: run `update` for the requested
number of days, but stop (with liveness false, the `endGame` path) as
soon as an update reports that every planet is dead. -/
def Game.run (g : Game) (ref : Planet) : ℕ → Game × Prop
  | 0 => (g, True)
  | n + 1 =>
      let r := g.update ref
      @ite _ r.2 (Classical.propDecidable r.2) (r.1.run ref n) (r.1, False)

/-- Positivity of the reference endowment, the standing assumption on the
spec-modelled `setup.refStd`. -/
def goodRef (s : Resources) : Prop :=
  0 < s.water ∧ 0 < s.food ∧ 0 < s.energy ∧ 0 < s.population

/-- The reference planet used in concrete instances: the spec-modelled
canonical endowment with per-capita water, food and energy all 4. -/
def refStd4 : Resources := { water := 4, food := 4, energy := 4, population := 1 }

def ref4 : Planet := refPlanet refStd4

/-- A dead planet used as a concrete input. -/
def pDead : Planet :=
  { name := "dead"
    info := { gravity := 1, distance := 2, period := 3, theta := 0,
              initResources := { water := 5, food := 5, energy := 5, population := 0 } }
    raw := { water := 5, food := 5, energy := 5, population := 0 }
    available := { water := 1, food := 1, energy := 1, population := 0 }
    rate := zeroRes
    qolRate := 0 }

/-- A planet with an exhausted water reserve, witness input for C7. -/
def pDry : Planet :=
  { name := "dry"
    info := { gravity := 1, distance := 1, period := 1, theta := 0,
              initResources := { water := 2, food := 2, energy := 2, population := 2 } }
    raw := { water := 0, food := 1, energy := 1, population := 2 }
    available := { water := 7, food := 1, energy := 1, population := 1 }
    rate := zeroRes
    qolRate := 0 }

/-- The spec-modelled reference endowment for C1, chosen with distinct
water and food per-capita baselines. -/
def refStdC1 : Resources := { water := 4, food := 16, energy := 4, population := 1 }

def refC1 : Planet := refPlanet refStdC1

/-- Concrete planet showing the consumption bug of C1. -/
def pC1 : Planet :=
  { name := "c1"
    info := { gravity := 1, distance := 1, period := 1, theta := 0,
              initResources := { water := 1, food := 1, energy := 1, population := 10 } }
    raw := { water := 0, food := 0, energy := 0, population := 10 }
    available := { water := 300, food := 200, energy := 100, population := 10 }
    rate := zeroRes
    qolRate := 0 }

/-- A planet with a fractional population of one tenth, the C2
counterexample input. -/
def pFrac : Planet :=
  { name := "frac"
    info := { gravity := 1, distance := 1, period := 1, theta := 0,
              initResources := { water := 1, food := 1, energy := 1, population := 1 } }
    raw := { water := 0, food := 0, energy := 0, population := 0 }
    available := { water := 0, food := 0, energy := 0, population := 1 / 10 }
    rate := zeroRes
    qolRate := 0 }

/-- A well-formed planet with integer population, the C2 witness input. -/
def pInt : Planet :=
  { name := "int"
    info := { gravity := 1, distance := 1, period := 1, theta := 0,
              initResources := { water := 10, food := 10, energy := 10, population := 0 } }
    raw := { water := 5, food := 5, energy := 5, population := 0 }
    available := { water := 1, food := 2, energy := 3, population := 3 }
    rate := zeroRes
    qolRate := 0 }

/-- An alive planet whose total quality of life is exactly zero, the C4
concrete input. -/
def pQ0 : Planet :=
  { name := "q0"
    info := { gravity := 1, distance := 1, period := 1, theta := 0,
              initResources := { water := 1, food := 1, energy := 1, population := 100 } }
    raw := { water := 0, food := 0, energy := 0, population := 100 }
    available := { water := 100, food := 100, energy := 0, population := 100 }
    rate := zeroRes
    qolRate := 0 }

/-- Population 101 planet whose birth rate flips branch when the
baseline individual is removed, the C5 counterexample input. -/
def pBig : Planet :=
  { name := "big"
    info := { gravity := 1, distance := 1, period := 1, theta := 0,
              initResources := { water := 1, food := 1, energy := 1, population := 101 } }
    raw := { water := 0, food := 0, energy := 0, population := 101 }
    available := { water := 100, food := 400, energy := 0, population := 101 }
    rate := zeroRes
    qolRate := 0 }

/-- Population 100 planet whose decremented birth rate is exactly zero,
the C5 witness input. -/
def pMid : Planet :=
  { name := "mid"
    info := { gravity := 1, distance := 1, period := 1, theta := 0,
              initResources := { water := 1, food := 1, energy := 1, population := 100 } }
    raw := { water := 0, food := 0, energy := 0, population := 100 }
    available := { water := 99, food := 99, energy := 0, population := 100 }
    rate := zeroRes
    qolRate := 0 }

/-- A planet sitting at the origin (orbital radius zero), used to
realize an inter-planet distance of zero for C9. -/
def pZero : Planet :=
  { name := "zero"
    info := { gravity := 1, distance := 0, period := 1, theta := 0,
              initResources := { water := 9, food := 9, energy := 9, population := 9 } }
    raw := { water := 9, food := 9, energy := 9, population := 9 }
    available := { water := 9, food := 9, energy := 9, population := 9 }
    rate := zeroRes
    qolRate := 0 }

/-- An all-dead two-planet system, the C8 concrete input. -/
def gDead : Game :=
  { planets := [("a", pDead), ("b", pDead)]
    trade := []
    currentDay := 0
    qolScore := 0 }

lemma Resources.get_set_self (v : Resources) (rn : ResName) (x : ℝ) :
    (v.set rn x).get rn = x := by
  cases rn <;> rfl

lemma Resources.get_set_of_ne (v : Resources) {rn rm : ResName} (x : ℝ)
    (h : rm ≠ rn) : (v.set rn x).get rm = v.get rm := by
  cases rn <;> cases rm <;> first | rfl | exact absurd rfl h

lemma Resources.get_population (v : Resources) :
    v.get ResName.population = v.population := rfl

/-- A dead planet's step is the identity (planet.ts lines 235-237). -/
lemma Planet.step_of_dead {p : Planet} (ref : Planet)
    (h : p.available.population = 0) : p.step ref = p := by
  simp [Planet.step, h]

lemma Planet.step_available {p : Planet} (ref : Planet)
    (h : ¬ p.available.population = 0) :
    (p.step ref).available =
      ((((p.mu ref ResName.water).1.mu ref ResName.food).1.mu ref
        ResName.energy).1.birth ref).1.available := by
  simp [Planet.step, h, Planet.birth, Planet.setPop]

lemma Planet.step_raw {p : Planet} (ref : Planet)
    (h : ¬ p.available.population = 0) :
    (p.step ref).raw =
      (((p.mu ref ResName.water).1.mu ref ResName.food).1.mu ref
        ResName.energy).1.raw := by
  simp [Planet.step, h, Planet.birth, Planet.setPop]

lemma Planet.step_info {p : Planet} (ref : Planet)
    (h : ¬ p.available.population = 0) :
    (p.step ref).info.gravity = p.info.gravity ∧
    (p.step ref).info.distance = p.info.distance ∧
    (p.step ref).info.period = p.info.period ∧
    (p.step ref).info.initResources = p.info.initResources := by
  simp [Planet.step, h, Planet.birth, Planet.setPop, Planet.mu]

lemma Planet.mu_fst (p ref : Planet) (rn : ResName) :
    (p.mu ref rn).1 =
      { p with
        raw := p.raw.set rn (p.raw.get rn -
          min (p.raw.get rn)
            (p.reqConsumption ref * (1 + sim.gainFactor) * p.abundance rn))
        available := p.available.set rn
          (max 0 (p.available.get rn +
            (min (p.raw.get rn)
              (p.reqConsumption ref * (1 + sim.gainFactor) * p.abundance rn) -
             p.reqConsumption ref))) } := rfl

lemma Planet.mu_raw (p ref : Planet) (rn : ResName) :
    (p.mu ref rn).1.raw = p.raw.set rn (p.raw.get rn -
      min (p.raw.get rn)
        (p.reqConsumption ref * (1 + sim.gainFactor) * p.abundance rn)) := rfl

lemma Planet.mu_available (p ref : Planet) (rn : ResName) :
    (p.mu ref rn).1.available = p.available.set rn
      (max 0 (p.available.get rn +
        (min (p.raw.get rn)
          (p.reqConsumption ref * (1 + sim.gainFactor) * p.abundance rn) -
         p.reqConsumption ref))) := rfl

lemma Planet.birth_fst (p ref : Planet) :
    (p.birth ref).1 = p.setPop
      ((round ((p.available.population - 1) *
        (1 + (p.setPop (p.available.population - 1)).birthRate ref)) : ℤ) : ℝ) := rfl

lemma Planet.setPop_population (p : Planet) (x : ℝ) :
    (p.setPop x).available.population = x := rfl

lemma Planet.setPop_get (p : Planet) (x : ℝ) {rm : ResName}
    (h : rm ≠ ResName.population) :
    (p.setPop x).available.get rm = p.available.get rm := by
  cases rm <;> first | rfl | exact absurd rfl h

lemma Planet.mu_available_population (p ref : Planet) {rn : ResName}
    (h : rn ≠ ResName.population) :
    (p.mu ref rn).1.available.population = p.available.population := by
  rw [Planet.mu_fst]
  show (p.available.set rn _).get ResName.population = _
  rw [Resources.get_set_of_ne _ _ (Ne.symm h), Resources.get_population]

lemma Planet.mu_raw_population (p ref : Planet) {rn : ResName}
    (h : rn ≠ ResName.population) :
    (p.mu ref rn).1.raw.population = p.raw.population := by
  rw [Planet.mu_fst]
  show (p.raw.set rn _).get ResName.population = _
  rw [Resources.get_set_of_ne _ _ (Ne.symm h), Resources.get_population]

lemma Planet.mu_info (p ref : Planet) (rn : ResName) :
    (p.mu ref rn).1.info = p.info := rfl

lemma Planet.birth_raw (p ref : Planet) : (p.birth ref).1.raw = p.raw := rfl

lemma Planet.birth_available_get (p ref : Planet) {rm : ResName}
    (h : rm ≠ ResName.population) :
    (p.birth ref).1.available.get rm = p.available.get rm := by
  rw [Planet.birth_fst]
  exact Planet.setPop_get p _ h

lemma Planet.birth_population (p ref : Planet) :
    (p.birth ref).1.available.population =
      ((round ((p.available.population - 1) *
        (1 + (p.setPop (p.available.population - 1)).birthRate ref)) : ℤ) : ℝ) := by
  rw [Planet.birth_fst, Planet.setPop_population]

lemma refPlanet_available (s : Resources) : (refPlanet s).available = s := rfl

lemma refPlanet_waterPerCapita (s : Resources) :
    (refPlanet s).waterPerCapita = s.water / s.population := rfl

lemma refPlanet_foodPerCapita (s : Resources) :
    (refPlanet s).foodPerCapita = s.food / s.population := rfl

lemma sqrt_quarter : Real.sqrt (1 / 4) = 1 / 2 := by
  rw [show (1 / 4 : ℝ) = (1 / 2) ^ 2 by norm_num, Real.sqrt_sq (by norm_num)]

/-- The reference planet's own qol per capita is exactly 1 whenever the
reference endowment is positive. -/
lemma refQol (s : Resources) (hs : goodRef s) :
    (refPlanet s).qolPerCapita (refPlanet s) = 1 := by
  obtain ⟨hw, hf, _, hp⟩ := hs
  rw [Planet.qolPerCapita,
    if_neg (show ¬ (refPlanet s).available.population = 0 from
      (show (refPlanet s).available.population = s.population from rfl) ▸ ne_of_gt hp)]
  rw [Planet.quench, Planet.fullness, refPlanet_waterPerCapita, refPlanet_foodPerCapita]
  rw [div_self (ne_of_gt (div_pos hw hp)), div_self (ne_of_gt (div_pos hf hp)),
    Real.sqrt_one]
  norm_num [sim.thirstFactor, sim.hungerFactor]

/-- The birth rate is never below the die-off constant minus a quarter. -/
lemma birthRate_lb (p ref : Planet) (h1 : ref.qolPerCapita ref = 1) :
    -(1 / 4) ≤ p.birthRate ref := by
  rw [Planet.birthRate]
  split_ifs with hq hf
  · norm_num [sim.quenchDieOff]
  · norm_num [sim.hungerDieOff]
  · have hprod : 0 ≤ p.productivity ref := by
      rw [Planet.productivity, h1, div_one, Planet.qolPerCapita]
      split_ifs with h0
      · exact le_refl 0
      · exact add_nonneg (not_lt.1 hq) (not_lt.1 hf)
    have hsign : 0 ≤ Real.sign (p.productivity ref) := by
      rcases eq_or_lt_of_le hprod with h | h
      · rw [← h, Real.sign_zero]
      · rw [Real.sign_of_pos h]; norm_num
    have : 0 ≤ Real.sign (p.productivity ref) * (p.productivity ref) ^ 2 *
        sim.birthRate :=
      mul_nonneg (mul_nonneg hsign (sq_nonneg _)) (by norm_num [sim.birthRate])
    linarith

/-- Births keep a positive integer population non-negative. -/
lemma birth_pop_nonneg (p ref : Planet) (h1 : ref.qolPerCapita ref = 1)
    {n : ℕ} (hpop : p.available.population = (n : ℝ)) (hn : 1 ≤ n) :
    0 ≤ (p.birth ref).1.available.population := by
  rw [Planet.birth_population]
  have hr := birthRate_lb (p.setPop (p.available.population - 1)) ref h1
  have hx : 0 ≤ (p.available.population - 1) *
      (1 + (p.setPop (p.available.population - 1)).birthRate ref) := by
    apply mul_nonneg
    · rw [hpop]
      have : (1 : ℝ) ≤ (n : ℝ) := by exact_mod_cast hn
      linarith
    · linarith
  have h2 : 0 ≤ (round ((p.available.population - 1) *
      (1 + (p.setPop (p.available.population - 1)).birthRate ref)) : ℤ) := by
    rw [round_eq]
    exact Int.floor_nonneg.2 (by linarith)
  exact_mod_cast h2

/-- One `mu` application preserves the resource invariants and never
increases any raw reserve. -/
lemma mu_invariant (p ref : Planet) (rn : ResName)
    (hreq : 0 ≤ p.reqConsumption ref)
    (hraw : ∀ rm, 0 ≤ p.raw.get rm ∧ p.raw.get rm ≤ p.info.initResources.get rm)
    (havl : ∀ rm, 0 ≤ p.available.get rm) :
    (∀ rm, 0 ≤ (p.mu ref rn).1.raw.get rm ∧
      (p.mu ref rn).1.raw.get rm ≤ p.info.initResources.get rm) ∧
    (∀ rm, 0 ≤ (p.mu ref rn).1.available.get rm) ∧
    (∀ rm, (p.mu ref rn).1.raw.get rm ≤ p.raw.get rm) := by
  have hmin0 : 0 ≤ min (p.raw.get rn)
      (p.reqConsumption ref * (1 + sim.gainFactor) * p.abundance rn) := by
    refine le_min (hraw rn).1 ?_
    refine mul_nonneg (mul_nonneg hreq (by norm_num [sim.gainFactor])) ?_
    exact div_nonneg (hraw rn).1 (le_trans (hraw rn).1 (hraw rn).2)
  refine ⟨?_, ?_, ?_⟩
  · intro rm
    rw [Planet.mu_raw]
    by_cases h : rm = rn
    · subst h
      rw [Resources.get_set_self]
      exact ⟨sub_nonneg.2 (min_le_left _ _),
        le_trans (sub_le_self _ hmin0) (hraw rm).2⟩
    · rw [Resources.get_set_of_ne _ _ h]; exact hraw rm
  · intro rm
    rw [Planet.mu_available]
    by_cases h : rm = rn
    · subst h; rw [Resources.get_set_self]; exact le_max_left _ _
    · rw [Resources.get_set_of_ne _ _ h]; exact havl rm
  · intro rm
    rw [Planet.mu_raw]
    by_cases h : rm = rn
    · subst h
      rw [Resources.get_set_self]
      exact sub_le_self _ hmin0
    · rw [Resources.get_set_of_ne _ _ h]

lemma mu_reqConsumption (p ref : Planet) {rn : ResName}
    (h : rn ≠ ResName.population) :
    (p.mu ref rn).1.reqConsumption ref = p.reqConsumption ref := by
  rw [Planet.reqConsumption, Planet.reqConsumption,
    Planet.mu_available_population p ref h]

lemma Planet.step_qolRate {p : Planet} (ref : Planet)
    (h : ¬ p.available.population = 0) :
    (p.step ref).qolRate =
      ((((p.mu ref ResName.water).1.mu ref ResName.food).1.mu ref
        ResName.energy).1.birth ref).1.totalQol ref / p.totalQol ref - 1 := by
  simp [Planet.step, h, Planet.totalQol, Planet.qolPerCapita, Planet.quench,
    Planet.fullness, Planet.waterPerCapita, Planet.foodPerCapita,
    Planet.birth, Planet.setPop]

/-- An alive planet with zero total qol records a qol rate of minus one
after step: the division by the zero previous total is unguarded. -/
lemma step_qolRate_of_zero {p : Planet} (ref : Planet)
    (h : ¬ p.available.population = 0) (h0 : p.totalQol ref = 0) :
    (p.step ref).qolRate = -1 := by
  rw [Planet.step_qolRate ref h, h0, div_zero]
  norm_num

/-- C10: step never modifies the immutable physical facts (gravity,
orbital distance, orbital period, stored initial endowment) nor the raw
population field, whether the planet is alive or dead. -/
theorem c10_thm (p ref : Planet) :
    (p.step ref).info.gravity = p.info.gravity ∧
    (p.step ref).info.distance = p.info.distance ∧
    (p.step ref).info.period = p.info.period ∧
    (p.step ref).info.initResources = p.info.initResources ∧
    (p.step ref).raw.population = p.raw.population := by
  by_cases h : p.available.population = 0
  · rw [Planet.step_of_dead ref h]
    exact ⟨rfl, rfl, rfl, rfl, rfl⟩
  · obtain ⟨h1, h2, h3, h4⟩ := Planet.step_info ref h
    refine ⟨h1, h2, h3, h4, ?_⟩
    rw [Planet.step_raw ref h]
    rw [Planet.mu_raw_population _ _ (by simp), Planet.mu_raw_population _ _ (by simp),
      Planet.mu_raw_population _ _ (by simp)]

/-- C3: a planet with zero population is bit-identical after step (frozen). -/
theorem c3_thm (p ref : Planet) (h : p.available.population = 0) :
    p.step ref = p :=
  Planet.step_of_dead ref h

theorem c3_witness : pDead.step ref4 = pDead := c3_thm pDead ref4 rfl

/-- C7: applying `mu` when the raw reserve is exhausted extracts nothing
and the available stock drops by exactly the required consumption,
clamped at zero. -/
theorem c7_thm (p ref : Planet) (rn : ResName)
    (hinit : 0 < p.info.initResources.get rn)
    (hraw : p.raw.get rn = 0) :
    (p.mu ref rn).1.raw.get rn = 0 ∧
    (p.mu ref rn).1.available.get rn =
      max 0 (p.available.get rn - p.reqConsumption ref) := by
  have hab : p.abundance rn = 0 := by rw [Planet.abundance, hraw, zero_div]
  rw [Planet.mu_fst]
  constructor
  · show (p.raw.set rn _).get rn = 0
    rw [Resources.get_set_self, hraw, hab]
    simp
  · show (p.available.set rn _).get rn = _
    rw [Resources.get_set_self, hraw, hab]
    simp [sub_eq_add_neg]

theorem c7_witness :
    (pDry.mu ref4 ResName.water).1.raw.get ResName.water = 0 ∧
    (pDry.mu ref4 ResName.water).1.available.get ResName.water =
      max 0 (pDry.available.get ResName.water - pDry.reqConsumption ref4) :=
  c7_thm pDry ref4 ResName.water (by norm_num [pDry, Resources.get]) rfl

/-- C6: the `forward` argument guard of game.ts never fires on a
non-positive day count (with the default refresh period): the thrown
check `!(0 < dps) && !(dps < MAX_SAFE_INTEGER)` is unsatisfiable for
any real `dps <= 0`, so no out-of-range rejection happens. -/
theorem c6_thm (dps : ℝ) (h : dps ≤ 0) : ¬ forwardRejects dps 100 := by
  rw [forwardRejects]
  rintro (⟨h1, h2⟩ | h3)
  · exact h2 (lt_of_le_of_lt h (by norm_num [maxSafeInteger]))
  · exact h3 (by norm_num)

theorem c6_witness : (-5 : ℝ) ≤ 0 ∧ ¬ forwardRejects (-5) 100 :=
  ⟨by norm_num, c6_thm (-5) (by norm_num)⟩

/-- C1: the daily consumption used by `mu` is population times the
reference planet's WATER per capita for every resource.  At a reference
with food per capita 16 and water per capita 4, a planet of population
10 consumes 40 units of food per day (available food drops 200 to 160),
not the 160 units the claim's per-resource formula requires. -/
theorem c1_eval :
    pC1.reqConsumption refC1 = 40 ∧
    refC1.foodPerCapita = 16 ∧
    (pC1.mu refC1 ResName.food).1.available.food = 160 ∧
    pC1.available.food - pC1.available.population * refC1.foodPerCapita = 40 ∧
    (160 : ℝ) ≠ 40 := by
  refine ⟨?_, ?_, ?_, ?_, by norm_num⟩
  · norm_num [Planet.reqConsumption, Planet.waterPerCapita, pC1, refC1,
      refStdC1, refPlanet, mkPlanet]
  · norm_num [Planet.foodPerCapita, refC1, refStdC1, refPlanet, mkPlanet]
  · show (pC1.available.set ResName.food _).food = _
    simp only [show (pC1.available.set ResName.food
        (max 0 (pC1.available.get ResName.food +
          (min (pC1.raw.get ResName.food)
            (pC1.reqConsumption refC1 * (1 + sim.gainFactor) *
              pC1.abundance ResName.food) -
           pC1.reqConsumption refC1)))).food =
      max 0 (pC1.available.get ResName.food +
          (min (pC1.raw.get ResName.food)
            (pC1.reqConsumption refC1 * (1 + sim.gainFactor) *
              pC1.abundance ResName.food) -
           pC1.reqConsumption refC1)) from rfl]
    norm_num [Planet.reqConsumption, Planet.waterPerCapita, Planet.abundance,
      Resources.get, pC1, refC1, refStdC1, refPlanet, mkPlanet, sim.gainFactor]
  · norm_num [Planet.foodPerCapita, pC1, refC1, refStdC1, refPlanet, mkPlanet]

/-- C2 (amended): with a positive reference endowment, positive initial
endowments of the consumable resources and an integer population, one
step keeps every available amount non-negative, keeps the raw reserves
between zero and the initial endowment, and never increases any raw
reserve (monotonic depletion). -/
theorem c2_amended (s : Resources) (p : Planet) (hs : goodRef s)
    (hpos : ∀ rm, rm ≠ ResName.population → 0 < p.info.initResources.get rm)
    (hnat : ∃ n : ℕ, p.available.population = (n : ℝ))
    (hraw : ∀ rm, 0 ≤ p.raw.get rm ∧ p.raw.get rm ≤ p.info.initResources.get rm)
    (havl : ∀ rm, 0 ≤ p.available.get rm) :
    (∀ rm, 0 ≤ (p.step (refPlanet s)).available.get rm) ∧
    (∀ rm, 0 ≤ (p.step (refPlanet s)).raw.get rm ∧
      (p.step (refPlanet s)).raw.get rm ≤ p.info.initResources.get rm) ∧
    (∀ rm, (p.step (refPlanet s)).raw.get rm ≤ p.raw.get rm) := by
  obtain ⟨n, hn⟩ := hnat
  by_cases h0 : p.available.population = 0
  · rw [Planet.step_of_dead _ h0]; exact ⟨havl, hraw, fun rm => le_refl _⟩
  · have hn1 : 1 ≤ n := by
      rcases Nat.eq_zero_or_pos n with h | h
      · exact absurd (by rw [hn, h]; norm_num) h0
      · exact h
    have hwpc : 0 ≤ (refPlanet s).waterPerCapita := by
      rw [refPlanet_waterPerCapita]
      exact le_of_lt (div_pos hs.1 hs.2.2.2)
    have hpn : (0 : ℝ) ≤ p.available.population := hn ▸ Nat.cast_nonneg n
    have hreq : 0 ≤ p.reqConsumption (refPlanet s) := mul_nonneg hpn hwpc
    obtain ⟨hraw1, havl1, hmono1⟩ := mu_invariant p (refPlanet s) ResName.water hreq hraw havl
    have hpop1 : (p.mu (refPlanet s) ResName.water).1.available.population =
        p.available.population := Planet.mu_available_population p _ (by simp)
    have hinit1 : (p.mu (refPlanet s) ResName.water).1.info.initResources =
        p.info.initResources := by rw [Planet.mu_info]
    have hraw1' : ∀ rm, 0 ≤ (p.mu (refPlanet s) ResName.water).1.raw.get rm ∧
        (p.mu (refPlanet s) ResName.water).1.raw.get rm ≤
          (p.mu (refPlanet s) ResName.water).1.info.initResources.get rm := by
      intro rm; rw [hinit1]; exact hraw1 rm
    have hreq1 : 0 ≤ (p.mu (refPlanet s) ResName.water).1.reqConsumption (refPlanet s) := by
      rw [mu_reqConsumption p _ (by simp)]; exact hreq
    obtain ⟨hraw2, havl2, hmono2⟩ := mu_invariant _ (refPlanet s) ResName.food hreq1 hraw1' havl1
    have hraw2 : ∀ rm,
        0 ≤ ((p.mu (refPlanet s) ResName.water).1.mu (refPlanet s) ResName.food).1.raw.get rm ∧
        ((p.mu (refPlanet s) ResName.water).1.mu (refPlanet s) ResName.food).1.raw.get rm ≤
          p.info.initResources.get rm := by
      intro rm
      have := hraw2 rm
      rw [hinit1] at this
      exact this
    have hpop2 : ((p.mu (refPlanet s) ResName.water).1.mu (refPlanet s)
        ResName.food).1.available.population = p.available.population := by
      rw [Planet.mu_available_population _ _ (by simp), hpop1]
    have hinit2 : ((p.mu (refPlanet s) ResName.water).1.mu (refPlanet s)
        ResName.food).1.info.initResources = p.info.initResources := by
      rw [Planet.mu_info, hinit1]
    have hraw2' : ∀ rm,
        0 ≤ ((p.mu (refPlanet s) ResName.water).1.mu (refPlanet s) ResName.food).1.raw.get rm ∧
        ((p.mu (refPlanet s) ResName.water).1.mu (refPlanet s) ResName.food).1.raw.get rm ≤
          ((p.mu (refPlanet s) ResName.water).1.mu (refPlanet s)
            ResName.food).1.info.initResources.get rm := by
      intro rm; rw [hinit2]; exact hraw2 rm
    have hreq2 : 0 ≤ ((p.mu (refPlanet s) ResName.water).1.mu (refPlanet s)
        ResName.food).1.reqConsumption (refPlanet s) := by
      rw [mu_reqConsumption _ _ (by simp), mu_reqConsumption p _ (by simp)]; exact hreq
    obtain ⟨hraw3, havl3, hmono3⟩ := mu_invariant _ (refPlanet s) ResName.energy hreq2 hraw2' havl2
    have hraw3 : ∀ rm,
        0 ≤ (((p.mu (refPlanet s) ResName.water).1.mu (refPlanet s) ResName.food).1.mu
          (refPlanet s) ResName.energy).1.raw.get rm ∧
        (((p.mu (refPlanet s) ResName.water).1.mu (refPlanet s) ResName.food).1.mu
          (refPlanet s) ResName.energy).1.raw.get rm ≤ p.info.initResources.get rm := by
      intro rm
      have := hraw3 rm
      rw [hinit2] at this
      exact this
    have hpop3 : (((p.mu (refPlanet s) ResName.water).1.mu (refPlanet s) ResName.food).1.mu
        (refPlanet s) ResName.energy).1.available.population = (n : ℝ) := by
      rw [Planet.mu_available_population _ _ (by simp), hpop2, hn]
    refine ⟨?_, ?_, ?_⟩
    · intro rm
      rw [Planet.step_available _ h0]
      by_cases hm : rm = ResName.population
      · subst hm
        rw [Resources.get_population]
        exact birth_pop_nonneg _ _ (refQol s hs) hpop3 hn1
      · rw [Planet.birth_available_get _ _ hm]
        exact havl3 rm
    · intro rm
      rw [Planet.step_raw _ h0]
      exact hraw3 rm
    · intro rm
      rw [Planet.step_raw _ h0]
      exact le_trans (hmono3 rm) (le_trans (hmono2 rm) (hmono1 rm))

theorem c2_witness :
    (∀ rm, 0 ≤ (pInt.step (refPlanet refStd4)).available.get rm) ∧
    (∀ rm, 0 ≤ (pInt.step (refPlanet refStd4)).raw.get rm ∧
      (pInt.step (refPlanet refStd4)).raw.get rm ≤
        pInt.info.initResources.get rm) ∧
    (∀ rm, (pInt.step (refPlanet refStd4)).raw.get rm ≤ pInt.raw.get rm) :=
  c2_amended refStd4 pInt (by norm_num [goodRef, refStd4])
    (by
      intro rm hrm
      cases rm
      · norm_num [pInt, Resources.get]
      · norm_num [pInt, Resources.get]
      · norm_num [pInt, Resources.get]
      · exact absurd rfl hrm)
    ⟨3, by norm_num [pInt]⟩
    (by intro rm; cases rm <;> norm_num [pInt, Resources.get])
    (by intro rm; cases rm <;> norm_num [pInt, Resources.get])

lemma pFrac_mu_water : (pFrac.mu ref4 ResName.water).1 = pFrac := by
  rw [Planet.mu_fst]
  simp [pFrac, ref4, refStd4, refPlanet, mkPlanet, Resources.set, Resources.get,
    Planet.reqConsumption, Planet.abundance, Planet.waterPerCapita, sim.gainFactor]

lemma pFrac_mu_food : (pFrac.mu ref4 ResName.food).1 = pFrac := by
  rw [Planet.mu_fst]
  simp [pFrac, ref4, refStd4, refPlanet, mkPlanet, Resources.set, Resources.get,
    Planet.reqConsumption, Planet.abundance, Planet.waterPerCapita, sim.gainFactor]

lemma pFrac_mu_energy : (pFrac.mu ref4 ResName.energy).1 = pFrac := by
  rw [Planet.mu_fst]
  simp [pFrac, ref4, refStd4, refPlanet, mkPlanet, Resources.set, Resources.get,
    Planet.reqConsumption, Planet.abundance, Planet.waterPerCapita, sim.gainFactor]

lemma pFrac_birthRate :
    (pFrac.setPop (pFrac.available.population - 1)).birthRate ref4 =
      -sim.quenchDieOff := by
  have hwpc : (pFrac.setPop (pFrac.available.population - 1)).waterPerCapita = 0 := by
    rw [Planet.waterPerCapita]
    exact zero_div _
  have hq : (pFrac.setPop (pFrac.available.population - 1)).quench ref4 < 0 := by
    rw [Planet.quench, hwpc, zero_div, Real.sqrt_zero]
    norm_num [sim.thirstFactor]
  rw [Planet.birthRate, if_pos hq]

lemma pFrac_step_pop : (pFrac.step ref4).available.population = -1 := by
  have hne : ¬ pFrac.available.population = 0 := by norm_num [pFrac]
  have h := Planet.step_available ref4 hne
  calc (pFrac.step ref4).available.population
      = ((((pFrac.mu ref4 ResName.water).1.mu ref4 ResName.food).1.mu ref4
          ResName.energy).1.birth ref4).1.available.population := by rw [h]
    _ = (pFrac.birth ref4).1.available.population := by
          rw [pFrac_mu_water, pFrac_mu_food, pFrac_mu_energy]
    _ = ((round ((pFrac.available.population - 1) *
          (1 + -sim.quenchDieOff)) : ℤ) : ℝ) := by
          rw [Planet.birth_population, pFrac_birthRate]
    _ = -1 := by
          rw [show pFrac.available.population = (1 / 10 : ℝ) from rfl]
          rw [show ((1 / 10 : ℝ) - 1) * (1 + -sim.quenchDieOff) = -27 / 40 by
            norm_num [sim.quenchDieOff]]
          rw [round_eq]
          rw [show (-27 / 40 : ℝ) + 1 / 2 = -7 / 40 by norm_num]
          rw [show (⌊(-7 / 40 : ℝ)⌋ : ℤ) = -1 by
            rw [Int.floor_eq_iff] <;> norm_num]
          norm_num

/-- C2 (counterexample): the stated invariant fails on a planet with a
fractional population of one tenth: although every hypothesis of the
claim holds, one step drives the available population to minus one. -/
theorem c2_counterexample :
    ¬ (∀ p : Planet,
        (∀ rm, 0 ≤ p.info.initResources.get rm) →
        (∀ rm, 0 ≤ p.raw.get rm ∧ p.raw.get rm ≤ p.info.initResources.get rm) →
        (∀ rm, 0 ≤ p.available.get rm) →
        (∀ rm, 0 ≤ (p.step ref4).available.get rm) ∧
        (∀ rm, 0 ≤ (p.step ref4).raw.get rm ∧
          (p.step ref4).raw.get rm ≤ p.info.initResources.get rm) ∧
        (∀ rm, (p.step ref4).raw.get rm ≤ p.raw.get rm)) := by
  intro hclaim
  have h2 := (hclaim pFrac
    (by intro rm; cases rm <;> norm_num [pFrac, Resources.get])
    (by intro rm; cases rm <;> norm_num [pFrac, Resources.get])
    (by intro rm; cases rm <;> norm_num [pFrac, Resources.get])).1 ResName.population
  rw [Resources.get_population, pFrac_step_pop] at h2
  norm_num at h2

lemma pQ0_totalQol : pQ0.totalQol ref4 = 0 := by
  rw [Planet.totalQol, Planet.qolPerCapita, if_neg (by norm_num [pQ0])]
  have hw : pQ0.waterPerCapita / ref4.waterPerCapita = 1 / 4 := by
    norm_num [Planet.waterPerCapita, pQ0, ref4, refStd4, refPlanet, mkPlanet]
  have hf : pQ0.foodPerCapita / ref4.foodPerCapita = 1 / 4 := by
    norm_num [Planet.foodPerCapita, pQ0, ref4, refStd4, refPlanet, mkPlanet]
  rw [Planet.quench, Planet.fullness, hw, hf, sqrt_quarter]
  norm_num [sim.thirstFactor, sim.hungerFactor]

/-- C4 (amended): for an alive planet whose total qol before step is 0,
the recorded qolRate is -1, not 0: the code divides by the zero
previous total without a guard (in exact arithmetic with the `x/0 = 0`
convention the stored rate is `0 - 1`; in JS it is NaN or infinite). -/
theorem c4_amended (p ref : Planet) (halive : ¬ p.available.population = 0)
    (h0 : p.totalQol ref = 0) : (p.step ref).qolRate = -1 :=
  step_qolRate_of_zero ref halive h0

theorem c4_witness : (pQ0.step ref4).qolRate = -1 :=
  c4_amended pQ0 ref4 (by norm_num [pQ0]) pQ0_totalQol

/-- C4 (counterexample): an alive planet with total qol zero records a
qolRate different from the claimed guarded value 0. -/
theorem c4_counterexample :
    ¬ pQ0.available.population = 0 ∧ pQ0.totalQol ref4 = 0 ∧
    ¬ (pQ0.step ref4).qolRate = 0 := by
  refine ⟨by norm_num [pQ0], pQ0_totalQol, ?_⟩
  rw [step_qolRate_of_zero ref4 (by norm_num [pQ0]) pQ0_totalQol]
  norm_num

lemma refQol4 : ref4.qolPerCapita ref4 = 1 :=
  refQol refStd4 (by norm_num [goodRef, refStd4])

/-- C5 (amended): birth stores `round((p - 1) * (1 + r))` where `r` is
the birth rate read after the baseline decrement, and with population
100 and that rate 0 the result is 99. -/
theorem c5_amended (p ref : Planet) :
    (p.birth ref).1.available.population =
      ((round ((p.available.population - 1) *
        (1 + (p.setPop (p.available.population - 1)).birthRate ref)) : ℤ) : ℝ) ∧
    (p.available.population = 100 →
      (p.setPop (p.available.population - 1)).birthRate ref = 0 →
      (p.birth ref).1.available.population = 99) := by
  refine ⟨Planet.birth_population p ref, ?_⟩
  intro h100 hr0
  rw [Planet.birth_population, hr0, h100]
  rw [show ((100 : ℝ) - 1) * (1 + 0) = ((99 : ℤ) : ℝ) by norm_num, round_intCast]
  norm_num

lemma pMid_rate0 : (pMid.setPop (pMid.available.population - 1)).birthRate ref4 = 0 := by
  have hq : (pMid.setPop (pMid.available.population - 1)).quench ref4 = 0 := by
    rw [Planet.quench]
    have h1 : (pMid.setPop (pMid.available.population - 1)).waterPerCapita /
        ref4.waterPerCapita = 1 / 4 := by
      norm_num [Planet.waterPerCapita, Planet.setPop, pMid, ref4, refStd4,
        refPlanet, mkPlanet]
    rw [h1, sqrt_quarter]
    norm_num [sim.thirstFactor]
  have hf : (pMid.setPop (pMid.available.population - 1)).fullness ref4 = 0 := by
    rw [Planet.fullness]
    have h1 : (pMid.setPop (pMid.available.population - 1)).foodPerCapita /
        ref4.foodPerCapita = 1 / 4 := by
      norm_num [Planet.foodPerCapita, Planet.setPop, pMid, ref4, refStd4,
        refPlanet, mkPlanet]
    rw [h1, sqrt_quarter]
    norm_num [sim.hungerFactor]
  have hprod : (pMid.setPop (pMid.available.population - 1)).productivity ref4 = 0 := by
    rw [Planet.productivity, refQol4, div_one, Planet.qolPerCapita,
      if_neg (by rw [Planet.setPop_population]; norm_num [pMid]), hq, hf]
    norm_num
  rw [Planet.birthRate, if_neg (by rw [hq]; norm_num),
    if_neg (by rw [hf]; norm_num), hprod, Real.sign_zero]
  ring

theorem c5_witness : (pMid.birth ref4).1.available.population = 99 :=
  (c5_amended pMid ref4).2 (by norm_num [pMid]) pMid_rate0

lemma pBig_entry_rate : pBig.birthRate ref4 = -sim.quenchDieOff := by
  have hq : pBig.quench ref4 < 0 := by
    rw [Planet.quench]
    have hr : pBig.waterPerCapita / ref4.waterPerCapita = 25 / 101 := by
      norm_num [Planet.waterPerCapita, pBig, ref4, refStd4, refPlanet, mkPlanet]
    rw [hr]
    have hs : Real.sqrt (25 / 101) < 1 / 2 := by
      rw [Real.sqrt_lt' (by norm_num : (0 : ℝ) < 1 / 2)]
      norm_num
    rw [show sim.thirstFactor = 1 / 2 by norm_num [sim.thirstFactor]]
    linarith
  rw [Planet.birthRate, if_pos hq]

lemma pBig_mid_rate :
    (pBig.setPop (pBig.available.population - 1)).birthRate ref4 =
      sim.birthRate / 4 := by
  have hq : (pBig.setPop (pBig.available.population - 1)).quench ref4 = 0 := by
    rw [Planet.quench]
    have h1 : (pBig.setPop (pBig.available.population - 1)).waterPerCapita /
        ref4.waterPerCapita = 1 / 4 := by
      norm_num [Planet.waterPerCapita, Planet.setPop, pBig, ref4, refStd4,
        refPlanet, mkPlanet]
    rw [h1, sqrt_quarter]
    norm_num [sim.thirstFactor]
  have hf : (pBig.setPop (pBig.available.population - 1)).fullness ref4 = 1 / 2 := by
    rw [Planet.fullness]
    have h1 : (pBig.setPop (pBig.available.population - 1)).foodPerCapita /
        ref4.foodPerCapita = 1 := by
      norm_num [Planet.foodPerCapita, Planet.setPop, pBig, ref4, refStd4,
        refPlanet, mkPlanet]
    rw [h1, Real.sqrt_one]
    norm_num [sim.hungerFactor]
  have hprod : (pBig.setPop (pBig.available.population - 1)).productivity ref4 =
      1 / 2 := by
    rw [Planet.productivity, refQol4, div_one, Planet.qolPerCapita,
      if_neg (by rw [Planet.setPop_population]; norm_num [pBig]), hq, hf]
    norm_num
  rw [Planet.birthRate, if_neg (by rw [hq]; norm_num),
    if_neg (by rw [hf]; norm_num), hprod,
    Real.sign_of_pos (by norm_num : (0 : ℝ) < 1 / 2)]
  ring

/-- C5 (counterexample): on a population-101 planet whose quench is
negative on entry but non-negative after the baseline decrement, birth
stores 100, while `round((p - 1) * (1 + r))` with `r` read from the
undecremented entry state would give 75. -/
theorem c5_counterexample :
    (pBig.birth ref4).1.available.population = 100 ∧
    ((round ((pBig.available.population - 1) *
      (1 + pBig.birthRate ref4)) : ℤ) : ℝ) = 75 ∧
    ¬ (pBig.birth ref4).1.available.population =
      ((round ((pBig.available.population - 1) *
        (1 + pBig.birthRate ref4)) : ℤ) : ℝ) := by
  have h1 : (pBig.birth ref4).1.available.population = 100 := by
    rw [Planet.birth_population, pBig_mid_rate]
    rw [show pBig.available.population = (101 : ℝ) from rfl]
    rw [show ((101 : ℝ) - 1) * (1 + sim.birthRate / 4) = 80021 / 800 by
      norm_num [sim.birthRate]]
    rw [round_eq]
    rw [show (80021 / 800 : ℝ) + 1 / 2 = 80421 / 800 by norm_num]
    rw [show (⌊(80421 / 800 : ℝ)⌋ : ℤ) = 100 by
      rw [Int.floor_eq_iff] <;> norm_num]
    norm_num
  have h2 : ((round ((pBig.available.population - 1) *
      (1 + pBig.birthRate ref4)) : ℤ) : ℝ) = 75 := by
    rw [pBig_entry_rate]
    rw [show pBig.available.population = (101 : ℝ) from rfl]
    rw [show ((101 : ℝ) - 1) * (1 + -sim.quenchDieOff) = ((75 : ℤ) : ℝ) by
      norm_num [sim.quenchDieOff], round_intCast]
    norm_num
  exact ⟨h1, h2, by rw [h1, h2]; norm_num⟩

lemma foldl_or_false (ps : List (String × Planet)) :
    ∀ b : Prop, (∀ x ∈ ps, x.2.available.population = 0) → ¬ b →
      ¬ ps.foldl (fun q x => q ∨ ¬ x.2.available.population = 0) b := by
  induction ps with
  | nil => intro b _ hb; simpa using hb
  | cons a l ih =>
      intro b h hb
      simp only [List.foldl_cons]
      refine ih _ (fun x hx => h x (List.mem_cons_of_mem a hx)) ?_
      rintro (hb' | hx)
      · exact hb hb'
      · exact hx (h a (List.mem_cons_self a l))

lemma anyAlive_false {ps : List (String × Planet)}
    (h : ∀ x ∈ ps, x.2.available.population = 0) : ¬ anyAlive ps :=
  foldl_or_false ps False h (fun hf => hf)

/-- An update of an all-dead system reports no survivor and advances the
day counter by exactly one. -/
lemma update_allDead (g : Game) (ref : Planet)
    (h : ∀ x ∈ g.planets, x.2.available.population = 0) :
    ¬ (g.update ref).2 ∧ (g.update ref).1.currentDay = g.currentDay + 1 := by
  constructor
  · show ¬ anyAlive (g.planets.map fun x => (x.1, x.2.step ref))
    apply anyAlive_false
    intro x hx
    obtain ⟨y, hy, hxy⟩ := List.mem_map.1 hx
    rw [← hxy]
    show (y.2.step ref).available.population = 0
    rw [Planet.step_of_dead ref (h y hy)]
    exact h y hy
  · rfl

/-- On an all-dead system, the fast-forward loop stops after the very
first update: the day counter advances by one, whatever the requested
day count, and game over is reported. -/
lemma run_allDead (g : Game) (ref : Planet) (n : ℕ)
    (h : ∀ x ∈ g.planets, x.2.available.population = 0) :
    (g.run ref (n + 1)).1.currentDay = g.currentDay + 1 ∧
    ¬ (g.run ref (n + 1)).2 := by
  obtain ⟨hdead, hday⟩ := update_allDead g ref h
  have hrun : g.run ref (n + 1) = ((g.update ref).1, False) := by
    simp only [Game.run]
    exact if_neg hdead
  rw [hrun]
  exact ⟨hday, fun hf => hf⟩

/-- C8 (amended): advancing an all-dead system by any positive number of
days reports liveness false on the first update, and the day counter
advances by exactly one (the loop returns at game over), not by the
requested number of days. -/
theorem c8_amended (g : Game) (ref : Planet) (n : ℕ) (hn : 1 ≤ n)
    (h : ∀ x ∈ g.planets, x.2.available.population = 0) :
    ¬ (g.update ref).2 ∧
    (g.run ref n).1.currentDay = g.currentDay + 1 ∧ ¬ (g.run ref n).2 := by
  obtain ⟨m, rfl⟩ : ∃ m, n = m + 1 := ⟨n - 1, (Nat.succ_pred_eq_of_pos hn).symm⟩
  obtain ⟨h1, h2⟩ := run_allDead g ref m h
  exact ⟨(update_allDead g ref h).1, h1, h2⟩

lemma gDead_allDead : ∀ x ∈ gDead.planets, x.2.available.population = 0 := by
  intro x hx
  have h2 : x = ("a", pDead) ∨ x = ("b", pDead) := by simpa [gDead] using hx
  rcases h2 with rfl | rfl
  · rfl
  · rfl

theorem c8_witness :
    ¬ (gDead.update ref4).2 ∧
    (gDead.run ref4 2).1.currentDay = gDead.currentDay + 1 ∧
    ¬ (gDead.run ref4 2).2 :=
  c8_amended gDead ref4 2 (by norm_num) gDead_allDead

/-- C8 (counterexample): on the all-dead two-planet system, advancing
two days leaves the day counter at one, not at the claimed two. -/
theorem c8_counterexample :
    (gDead.run ref4 2).1.currentDay = 1 ∧ (1 : ℕ) ≠ 2 := by
  obtain ⟨h1, _⟩ := run_allDead gDead ref4 1 gDead_allDead
  exact ⟨h1.trans rfl, by norm_num⟩

lemma Resources.scale_one (v : Resources) : Resources.scale 1 v = v := by
  simp [Resources.scale]

/-- C9: one ledger `forward` on a single registered transfer debits the
source by the annual amount divided by 365 (independently of distance),
and credits the destination with that daily amount reduced by the
multiplicative transferFactor-times-distance loss, for every planet
pair, every annual amount and every distance; at distance zero the
destination receives the full daily amount, in particular exactly 1.0
water for an annual rate of 365. -/
theorem c9_thm (a b : String) (pf pt : Planet) (amt : Resources) (hab : b ≠ a) :
    (List.lookup b (tradeForward [(a, pf), (b, pt)] [⟨a, b, amt⟩])).map
        (fun p => p.available) =
      some (Resources.add pt.available (Resources.scale
        (1 - sim.transferFactor * pf.distance pt) (Resources.scale (1 / 365) amt))) ∧
    (List.lookup a (tradeForward [(a, pf), (b, pt)] [⟨a, b, amt⟩])).map
        (fun p => p.available) =
      some (Resources.sub pf.available (Resources.scale (1 / 365) amt)) ∧
    (pf.distance pt = 0 →
      amt = { water := 365, food := 0, energy := 0, population := 0 } →
      (List.lookup b (tradeForward [(a, pf), (b, pt)] [⟨a, b, amt⟩])).map
          (fun p => p.available.water) = some (pt.available.water + 1)) := by
  have hne : a ≠ b := Ne.symm hab
  have hba : (b == a) = false := beq_eq_false_iff_ne.2 hab
  have hla : List.lookup a [(a, pf), (b, pt)] = some pf := by
    simp [List.lookup]
  have hlb : List.lookup b [(a, pf), (b, pt)] = some pt := by
    simp [List.lookup, hba]
  have hone : tradeForward [(a, pf), (b, pt)] [⟨a, b, amt⟩] =
      tradeForwardOne [(a, pf), (b, pt)] ⟨a, b, amt⟩ := rfl
  have hstep : tradeForwardOne [(a, pf), (b, pt)] ⟨a, b, amt⟩ =
      [(a, { pf with available := pf.available.sub (Resources.scale (1 / 365) amt) }),
       (b, { pt with available := pt.available.add (Resources.scale
          (1 - sim.transferFactor * pf.distance pt) (Resources.scale (1 / 365) amt)) })] := by
    simp only [tradeForwardOne, hla, hlb]
    simp [updatePlanet, hne, Ne.symm hne]
  refine ⟨?_, ?_, ?_⟩
  · rw [hone, hstep]
    simp [List.lookup, hba]
  · rw [hone, hstep]
    simp [List.lookup]
  · intro hd hamt
    rw [hone, hstep]
    simp [List.lookup, hba, hd, hamt, Resources.add, Resources.scale]

lemma pZero_dist : pZero.distance pZero = 0 := by
  have hx : pZero.x = 0 := by
    rw [Planet.x, show pZero.info.distance = 0 from rfl, zero_mul]
  have hy : pZero.y = 0 := by
    rw [Planet.y, show pZero.info.distance = 0 from rfl, zero_mul]
  rw [Planet.distance, hx, hy]
  norm_num

theorem c9_witness :
    (List.lookup "b" (tradeForward [("a", pZero), ("b", pZero)]
        [⟨"a", "b", { water := 365, food := 0, energy := 0, population := 0 }⟩])).map
      (fun p => p.available.water) = some (pZero.available.water + 1) :=
  (c9_thm "a" "b" pZero pZero
    { water := 365, food := 0, energy := 0, population := 0 }
    (by decide)).2.2 pZero_dist rfl

end Dictation
